import Mathlib

/-!
# Verification of the checkpoint-synchronization helper

Shallow embedding of the checkpoint publishing callbacks
(`SaveCheckpointsToS3Callback`, `SaveCheckpointsToGCSCallback`) and the
checkpoint loader (`CloudCheckpointLoader`) from `resuming_training.ipynb`,
together with theorems settling the specification claims.

Modelling conventions:
* Timestamps (`LastModified` for S3, `time_created` for GCS, both read through
  `strftime('%s')`, i.e. epoch seconds) are `Nat`.
* The remote store is a pure environment `String → List RemoteObject` mapping a
  bucket name to its object listing (one unpaginated listing call).
* Python exceptions become `Except`/error results; effects (directories
  created, files downloaded, upload calls issued) are returned as explicit
  traces.
* The notebook's module-level configuration variables (`training_name`,
  `s3_bucket_name`, `gcs_bucket_name`) are gathered into a `Config` record
  passed to each function; the notebook's concrete values form
  `defaultConfig`.  String literals hard-coded in a function body (the
  listing bucket in `__get_last_checkpoint_from_s3`) stay literal.
-/

/-- One file stored in the remote location: `key` is the full object key,
`lastModified` the store-assigned timestamp in epoch seconds
(`int(obj['LastModified'].strftime('%s'))` for S3,
`int(obj.time_created.strftime('%s'))` for GCS). -/
structure RemoteObject where
  key : String
  lastModified : Nat
deriving DecidableEq

/-- The notebook's module-level configuration variables. -/
structure Config where
  training_name : String
  s3_bucket_name : String
  gcs_bucket_name : String
deriving DecidableEq

/-- `training_name = "trainer-demo-checkpointing"` from the notebook. -/
def training_name : String := "trainer-demo-checkpointing"

/-- `s3_bucket_name = "hf-demo-s3-checkpointing-sagemaker"` from the notebook. -/
def s3_bucket_name : String := "hf-demo-s3-checkpointing-sagemaker"

/-- `gcs_bucket_name = "hf-demo-gcs-checkpointing"` from the notebook. -/
def gcs_bucket_name : String := "hf-demo-gcs-checkpointing"

/-- The configuration the notebook actually sets. -/
def defaultConfig : Config :=
  { training_name := training_name
    s3_bucket_name := s3_bucket_name
    gcs_bucket_name := gcs_bucket_name }

/-- Does `needle` occur at the start of `hay`?  (Character-list version of
Python's startswith, used to build the substring test below.) -/
def leadsChars : List Char → List Char → Bool
  | [], _ => true
  | _ :: _, [] => false
  | a :: as, b :: bs => a == b && leadsChars as bs

/-- Does `needle` occur contiguously somewhere in `hay`?  (Character-list
version of Python's `needle in hay` substring test.) -/
def containsChars (needle : List Char) : List Char → Bool
  | [] => leadsChars needle []
  | b :: bs => leadsChars needle (b :: bs) || containsChars needle bs

/-- Python's `needle in hay` on strings: substring containment. -/
def strContains (hay needle : String) : Bool :=
  containsChars needle.data hay.data

/-- The comparison used by both loader helpers:
`sorted(..., key=lambda obj: int(obj['LastModified'].strftime('%s')))`
sorts ascending by the epoch-seconds timestamp.  Python's `sorted` is a
stable ascending sort; `List.insertionSort` with this relation is also
stable and ascending, so both produce the identical output list. -/
def leLastModified (a b : RemoteObject) : Prop :=
  a.lastModified ≤ b.lastModified

instance : DecidableRel leLastModified :=
  fun a b => Nat.decLe a.lastModified b.lastModified

instance : IsTotal RemoteObject leLastModified :=
  ⟨fun a b => Nat.le_total a.lastModified b.lastModified⟩

instance : IsTrans RemoteObject leLastModified :=
  ⟨fun _ _ _ h h' => Nat.le_trans h h'⟩

/-- Split a character list at every occurrence of `sep`
(auxiliary for `pySplit`). -/
def splitOnChar (sep : Char) : List Char → List (List Char)
  | [] => [[]]
  | c :: rest =>
    match splitOnChar sep rest with
    | [] => [[]]
    | g :: gs => if c == sep then [] :: g :: gs else (c :: g) :: gs

/-- Python's `s.split(sep)` for a one-character separator, as used by
`sorted_keys[-1].split("/")`. -/
def pySplit (s : String) (sep : Char) : List String :=
  (splitOnChar sep s.data).map String.mk

/-- Errors raised by the loader.  `emptyLocation` stands for the Python
exception raised when the listing is empty (`response["Contents"]` is absent /
`sorted_keys[-1]` is out of range, the spec's `EmptyLocationError`);
`malformedKey` for the index error when the newest key has no second `/`
component; `invalidBackend` for the `assert` failure in `__init__` (the
spec's `InvalidBackendError`); `invalidBucketTypeValueError` for the
`raise ValueError("Invalid bucket type...")` in the final `else` branch of
`download_checkpoints`. -/
inductive LoaderError where
  | emptyLocation
  | malformedKey
  | invalidBackend
  | invalidBucketTypeValueError
deriving DecidableEq

/-- `CloudCheckpointLoader.__get_last_checkpoint_from_s3`: lists all objects
of the literal bucket `"hf-demo-s3-checkpointing-sagemaker"` (the string is
hard-coded at the call site in the source, independently of `s3_bucket_name`),
sorts them by last-modified epoch seconds ascending, takes the last key,
extracts its second `/`-separated component as the checkpoint directory, and
keeps every key containing that component as a substring. -/
def getLastCheckpointFromS3 (s3Env : String → List RemoteObject) :
    Except LoaderError (String × List String) :=
  let response := s3Env "hf-demo-s3-checkpointing-sagemaker"
  let sorted_content := response.insertionSort leLastModified
  let sorted_keys := sorted_content.map RemoteObject.key
  match sorted_keys.getLast? with
  | none => .error .emptyLocation
  | some lastKey =>
    match (pySplit lastKey '/').get? 1 with
    | none => .error .malformedKey
    | some checkpoint_dir =>
      .ok (checkpoint_dir, sorted_keys.filter (fun key => strContains key checkpoint_dir))

/-- `CloudCheckpointLoader.__get_last_checkpoint_from_gcs`: identical logic
over the listing of the GCS bucket object passed in (`bucket.list_blobs()`,
sorted by `time_created` epoch seconds). -/
def getLastCheckpointFromGCS (blobs : List RemoteObject) :
    Except LoaderError (String × List String) :=
  let sorted_content := blobs.insertionSort leLastModified
  let sorted_keys := sorted_content.map RemoteObject.key
  match sorted_keys.getLast? with
  | none => .error .emptyLocation
  | some lastKey =>
    match (pySplit lastKey '/').get? 1 with
    | none => .error .malformedKey
    | some checkpoint_dir =>
      .ok (checkpoint_dir, sorted_keys.filter (fun key => strContains key checkpoint_dir))

/-- The loader object: its only state is the `bucket_type` string set in
`__init__`. -/
structure CloudCheckpointLoader where
  bucket_type : String
deriving DecidableEq

/-- `CloudCheckpointLoader.__init__(bucket_type)`: stores the string and
asserts it is `"s3"` or `"gcs"`.  The body performs no storage-client call,
which the empty first component (the list of network calls issued) records. -/
def CloudCheckpointLoader.init (bucket_type : String) :
    List String × Except LoaderError CloudCheckpointLoader :=
  if bucket_type = "s3" ∨ bucket_type = "gcs" then
    ([], .ok { bucket_type := bucket_type })
  else
    ([], .error .invalidBackend)

/-- Filesystem/network effects performed by one `download_checkpoints` call:
directories created by `os.makedirs` and `(bucket, key)` pairs downloaded. -/
structure RunLog where
  dirsCreated : List String
  downloads : List (String × String)
deriving DecidableEq

/-- `CloudCheckpointLoader.download_checkpoints`: dispatches on
`bucket_type`; for S3 it selects the latest checkpoint via
`__get_last_checkpoint_from_s3`, creates `training_name/checkpoint_dir`, and
downloads each selected key from the bucket named by the configured
`s3_bucket_name`; for GCS likewise from the bucket named `gcs_bucket_name`;
otherwise it raises `ValueError`.  The Python function body contains no
`return` statement, so every successful call returns `None`: the result
carries `none` as the returned value. -/
def CloudCheckpointLoader.download_checkpoints (self : CloudCheckpointLoader)
    (cfg : Config) (s3Env gcsEnv : String → List RemoteObject) :
    RunLog × Except LoaderError (Option String) :=
  if self.bucket_type = "s3" then
    match getLastCheckpointFromS3 s3Env with
    | .error e => (⟨[], []⟩, .error e)
    | .ok (checkpoint_dir, checkpoint_files) =>
      let path_to_checkpoint := cfg.training_name ++ "/" ++ checkpoint_dir
      (⟨[path_to_checkpoint],
        checkpoint_files.map (fun file => (cfg.s3_bucket_name, file))⟩,
       .ok none)
  else if self.bucket_type = "gcs" then
    let bucketListing := gcsEnv cfg.gcs_bucket_name
    match getLastCheckpointFromGCS bucketListing with
    | .error e => (⟨[], []⟩, .error e)
    | .ok (checkpoint_dir, checkpoint_files) =>
      let path_to_checkpoint := cfg.training_name ++ "/" ++ checkpoint_dir
      (⟨[path_to_checkpoint],
        checkpoint_files.map (fun file => (cfg.gcs_bucket_name, file))⟩,
       .ok none)
  else
    (⟨[], []⟩, .error .invalidBucketTypeValueError)

/-- A local filesystem tree: a regular file or a directory with entries.
Models the checkpoint directory the training loop wrote. -/
inductive FsTree where
  | file (name : String)
  | dir (name : String) (entries : List FsTree)

/-- The name of an entry, as `os.listdir` reports it. -/
def FsTree.name : FsTree → String
  | .file n => n
  | .dir n _ => n

/-- `os.listdir(model_checkpoint)`: the names of the DIRECT entries of the
directory, files and subdirectories alike, without recursion. -/
def listdirNames (entries : List FsTree) : List String :=
  entries.map FsTree.name

mutual
/-- Relative paths of every regular file directly or recursively inside one
entry. -/
def FsTree.filesUnder : FsTree → List String
  | .file n => [n]
  | .dir d sub => (regularFilePaths sub).map (fun p => d ++ "/" ++ p)

/-- Spec-side notion used by the claim: the relative paths of every regular
file directly or recursively inside a directory with the given entries. -/
def regularFilePaths : List FsTree → List String
  | [] => []
  | t :: ts => t.filesUnder ++ regularFilePaths ts
end

/-- One `upload_file` / `blob.upload_from_filename` call:
the local source path, the destination bucket, the destination key. -/
structure UploadCall where
  localPath : String
  bucket : String
  key : String
deriving DecidableEq

/-- The per-file upload loop shared by both callbacks:
`for filename in os.listdir(model_checkpoint): upload(model_checkpoint + "/" + filename)`.
`uploadOk` tells whether the SDK call for a given path succeeds; a failing
call raises, aborting the loop.  The result is the list of upload calls that
completed before any failure, and whether the whole loop completed. -/
def uploadLoop (uploadOk : String → Bool) (bucket : String)
    (model_checkpoint : String) : List String → List UploadCall × Bool
  | [] => ([], true)
  | filename :: rest =>
    let filename_path := model_checkpoint ++ "/" ++ filename
    if uploadOk filename_path then
      let r := uploadLoop uploadOk bucket model_checkpoint rest
      (⟨filename_path, bucket, filename_path⟩ :: r.1, r.2)
    else
      ([], false)

/-- `SaveCheckpointsToS3Callback.on_save`: builds
`model_checkpoint = training_name + "/checkpoint-" + global_step`, then
uploads each entry of `os.listdir(model_checkpoint)` to the S3 bucket
`s3_bucket_name` under the key `model_checkpoint + "/" + filename`.
`checkpointEntries` is the tree content of the local `model_checkpoint`
directory; `uploadOk` the outcome of each SDK transfer. -/
def SaveCheckpointsToS3Callback.on_save (cfg : Config) (global_step : Nat)
    (checkpointEntries : List FsTree) (uploadOk : String → Bool) :
    List UploadCall × Bool :=
  let model_checkpoint := cfg.training_name ++ "/checkpoint-" ++ toString global_step
  uploadLoop uploadOk cfg.s3_bucket_name model_checkpoint (listdirNames checkpointEntries)

/-- `SaveCheckpointsToGCSCallback.on_save`: same `model_checkpoint` and the
same per-file loop, uploading each listed entry to the GCS bucket
`gcs_bucket_name` under the same key `model_checkpoint + "/" + filename`. -/
def SaveCheckpointsToGCSCallback.on_save (cfg : Config) (global_step : Nat)
    (checkpointEntries : List FsTree) (uploadOk : String → Bool) :
    List UploadCall × Bool :=
  let model_checkpoint := cfg.training_name ++ "/checkpoint-" ++ toString global_step
  uploadLoop uploadOk cfg.gcs_bucket_name model_checkpoint (listdirNames checkpointEntries)

/-- Is this entry a regular file (as opposed to a subdirectory)? -/
def FsTree.isFile : FsTree → Bool
  | .file _ => true
  | .dir _ _ => false

/-- A one-object remote store used to exercise a successful S3 fetch. -/
def demoEnv : String → List RemoteObject := fun b =>
  if b = "hf-demo-s3-checkpointing-sagemaker" then
    [⟨"trainer-demo-checkpointing/checkpoint-100/model.bin", 5⟩]
  else []

/-- A store holding objects of an older `checkpoint-50` and a newer
`checkpoint-100` directory. -/
def env10050 : String → List RemoteObject := fun b =>
  if b = "hf-demo-s3-checkpointing-sagemaker" then
    [⟨"run/checkpoint-50/a.bin", 2⟩,
     ⟨"run/checkpoint-50/b.bin", 3⟩,
     ⟨"run/checkpoint-100/a.bin", 5⟩,
     ⟨"run/checkpoint-100/b.bin", 6⟩]
  else []

/-- Checkpoint-directory content with a nested subdirectory:
two regular files live one level down. -/
def nestedEntries : List FsTree :=
  [.dir "sub" [.file "a.bin", .file "b.bin"]]

/-- Flat checkpoint-directory content: every direct entry is a regular
file, the layout the training framework actually writes. -/
def flatEntries : List FsTree :=
  [.file "model.bin", .file "config.json"]

/-! ## Helper lemmas -/

/-- Unfolding lemma: `download_checkpoints` on an `"s3"` loader. -/
theorem download_s3_eq (cfg : Config) (s3Env gcsEnv : String → List RemoteObject) :
    (CloudCheckpointLoader.mk "s3").download_checkpoints cfg s3Env gcsEnv =
      match getLastCheckpointFromS3 s3Env with
      | .error e => (⟨[], []⟩, .error e)
      | .ok (d, fs) =>
        (⟨[cfg.training_name ++ "/" ++ d],
          fs.map (fun f => (cfg.s3_bucket_name, f))⟩, .ok none) := rfl

/-- Unfolding lemma: `download_checkpoints` on a `"gcs"` loader. -/
theorem download_gcs_eq (cfg : Config) (s3Env gcsEnv : String → List RemoteObject) :
    (CloudCheckpointLoader.mk "gcs").download_checkpoints cfg s3Env gcsEnv =
      match getLastCheckpointFromGCS (gcsEnv cfg.gcs_bucket_name) with
      | .error e => (⟨[], []⟩, .error e)
      | .ok (d, fs) =>
        (⟨[cfg.training_name ++ "/" ++ d],
          fs.map (fun f => (cfg.gcs_bucket_name, f))⟩, .ok none) := rfl

/-- The S3 helper only raises the empty-listing or malformed-key errors. -/
theorem getLastCheckpointFromS3_error_cases (s3Env : String → List RemoteObject)
    (e : LoaderError) (h : getLastCheckpointFromS3 s3Env = .error e) :
    e = .emptyLocation ∨ e = .malformedKey := by
  unfold getLastCheckpointFromS3 at h
  simp only [] at h
  split at h
  · exact Or.inl (Except.error.inj h).symm
  · split at h
    · exact Or.inr (Except.error.inj h).symm
    · exact Except.noConfusion h

/-- The GCS helper only raises the empty-listing or malformed-key errors. -/
theorem getLastCheckpointFromGCS_error_cases (blobs : List RemoteObject)
    (e : LoaderError) (h : getLastCheckpointFromGCS blobs = .error e) :
    e = .emptyLocation ∨ e = .malformedKey := by
  unfold getLastCheckpointFromGCS at h
  simp only [] at h
  split at h
  · exact Or.inl (Except.error.inj h).symm
  · split at h
    · exact Or.inr (Except.error.inj h).symm
    · exact Except.noConfusion h

/-! ## Claim theorems -/

/-- C6: for every `bucket_type` outside {"s3", "gcs"}, `__init__` fails its
assertion (the spec's `InvalidBackendError`), with an empty network-call
trace: the constructor body contains no storage call, so the failure happens
before any network call could be made. -/
theorem init_rejects_unknown_backend (bt : String)
    (h1 : bt ≠ "s3") (h2 : bt ≠ "gcs") :
    CloudCheckpointLoader.init bt = ([], .error .invalidBackend) := by
  unfold CloudCheckpointLoader.init
  rw [if_neg]
  rintro (h | h)
  · exact h1 h
  · exact h2 h

/-- Witness for C6 at the concrete backend string `"azure"`. -/
theorem init_rejects_unknown_backend_witness :
    ("azure" ≠ "s3" ∧ "azure" ≠ "gcs") ∧
      CloudCheckpointLoader.init "azure" = ([], .error .invalidBackend) :=
  ⟨⟨by decide, by decide⟩,
   init_rejects_unknown_backend "azure" (by decide) (by decide)⟩

/-- C9: any loader that `__init__` constructs successfully has
`bucket_type ∈ {"s3", "gcs"}`, no operation mutates it, and therefore the
final `else` branch of `download_checkpoints`
(`raise ValueError("Invalid bucket type...")`) is unreachable: no call ever
produces that error. -/
theorem bucket_type_invariant (bt : String) (nets : List String)
    (loader : CloudCheckpointLoader)
    (h : CloudCheckpointLoader.init bt = (nets, .ok loader)) :
    (loader.bucket_type = "s3" ∨ loader.bucket_type = "gcs") ∧
      ∀ (cfg : Config) (s3Env gcsEnv : String → List RemoteObject),
        (loader.download_checkpoints cfg s3Env gcsEnv).2 ≠
          .error .invalidBucketTypeValueError := by
  unfold CloudCheckpointLoader.init at h
  split at h
  case isFalse => exact absurd (congrArg Prod.snd h) (by simp)
  case isTrue hbt =>
    have hloader : loader = CloudCheckpointLoader.mk bt := by
      have := congrArg Prod.snd h
      simp only at this
      exact (Except.ok.inj this).symm
    subst hloader
    refine ⟨hbt, ?_⟩
    intro cfg s3Env gcsEnv hcontra
    rcases hbt with hbt | hbt <;> subst hbt
    · rw [download_s3_eq] at hcontra
      rcases hs : getLastCheckpointFromS3 s3Env with e | pr
      · rw [hs] at hcontra
        simp only at hcontra
        rcases getLastCheckpointFromS3_error_cases s3Env e hs with rfl | rfl <;>
          exact absurd (Except.error.inj hcontra) (by simp)
      · rcases pr with ⟨d, fs⟩
        rw [hs] at hcontra
        exact Except.noConfusion hcontra
    · rw [download_gcs_eq] at hcontra
      rcases hs : getLastCheckpointFromGCS (gcsEnv cfg.gcs_bucket_name) with e | pr
      · rw [hs] at hcontra
        simp only at hcontra
        rcases getLastCheckpointFromGCS_error_cases _ e hs with rfl | rfl <;>
          exact absurd (Except.error.inj hcontra) (by simp)
      · rcases pr with ⟨d, fs⟩
        rw [hs] at hcontra
        exact Except.noConfusion hcontra

/-- Witness for C9: the loader built from `"s3"` satisfies the invariant;
in particular `download_checkpoints` on an empty store fails with the
empty-location error, not with the `ValueError` of the `else` branch. -/
theorem bucket_type_invariant_witness :
    ((CloudCheckpointLoader.mk "s3").bucket_type = "s3" ∨
      (CloudCheckpointLoader.mk "s3").bucket_type = "gcs") ∧
      ∀ (cfg : Config) (s3Env gcsEnv : String → List RemoteObject),
        ((CloudCheckpointLoader.mk "s3").download_checkpoints cfg s3Env gcsEnv).2 ≠
          .error .invalidBucketTypeValueError :=
  bucket_type_invariant "s3" [] (CloudCheckpointLoader.mk "s3") rfl

/-- C5: fetching from an empty remote location (the listing returns no
objects) fails with the empty-location error — the Python exception raised
before `os.makedirs` runs — and performs no filesystem write: no directory
is created and no file is downloaded, for the S3 and the GCS backend
alike. -/
theorem fetch_empty_location_no_writes (cfg : Config)
    (s3Env gcsEnv : String → List RemoteObject)
    (hs3 : s3Env "hf-demo-s3-checkpointing-sagemaker" = [])
    (hgcs : gcsEnv cfg.gcs_bucket_name = []) :
    (CloudCheckpointLoader.mk "s3").download_checkpoints cfg s3Env gcsEnv =
        (⟨[], []⟩, .error .emptyLocation) ∧
    (CloudCheckpointLoader.mk "gcs").download_checkpoints cfg s3Env gcsEnv =
        (⟨[], []⟩, .error .emptyLocation) := by
  have h1 : getLastCheckpointFromS3 s3Env = .error .emptyLocation := by
    unfold getLastCheckpointFromS3
    rw [hs3]
    rfl
  have h2 : getLastCheckpointFromGCS (gcsEnv cfg.gcs_bucket_name) =
      .error .emptyLocation := by
    unfold getLastCheckpointFromGCS
    rw [hgcs]
    rfl
  constructor
  · rw [download_s3_eq, h1]
  · rw [download_gcs_eq, h2]

/-- Witness for C5: both backends on a store with no objects at all. -/
theorem fetch_empty_location_no_writes_witness :
    ((fun _ : String => ([] : List RemoteObject))
        "hf-demo-s3-checkpointing-sagemaker" = [] ∧
      (fun _ : String => ([] : List RemoteObject))
        defaultConfig.gcs_bucket_name = []) ∧
    (CloudCheckpointLoader.mk "s3").download_checkpoints defaultConfig
        (fun _ => []) (fun _ => []) = (⟨[], []⟩, .error .emptyLocation) ∧
    (CloudCheckpointLoader.mk "gcs").download_checkpoints defaultConfig
        (fun _ => []) (fun _ => []) = (⟨[], []⟩, .error .emptyLocation) :=
  ⟨⟨rfl, rfl⟩,
   fetch_empty_location_no_writes defaultConfig (fun _ => []) (fun _ => []) rfl rfl⟩

/-- C1 (code bug): on a successful fetch the code computes
`path_to_checkpoint = "trainer-demo-checkpointing/checkpoint-100"` and
creates that directory, but the Python body of `download_checkpoints` has no
`return` statement, so the call returns `None` — never the local checkpoint
directory path its own docstring promises and its caller passes to
`from_pretrained`. -/
theorem download_checkpoints_returns_none :
    (CloudCheckpointLoader.mk "s3").download_checkpoints defaultConfig demoEnv
        (fun _ => []) =
      (⟨["trainer-demo-checkpointing/checkpoint-100"],
        [("hf-demo-s3-checkpointing-sagemaker",
          "trainer-demo-checkpointing/checkpoint-100/model.bin")]⟩, .ok none) ∧
    ∀ p : String,
      ((CloudCheckpointLoader.mk "s3").download_checkpoints defaultConfig demoEnv
          (fun _ => [])).2 ≠ .ok (some p) := by
  refine ⟨rfl, ?_⟩
  intro p hp
  rw [(rfl : ((CloudCheckpointLoader.mk "s3").download_checkpoints defaultConfig
      demoEnv (fun _ => [])).2 = Except.ok none)] at hp
  exact Option.noConfusion (Except.ok.inj hp)

/-- If every per-file transfer succeeds, the upload loop issues exactly one
upload call per listed name, with local path and remote key both equal to
`model_checkpoint + "/" + filename`. -/
theorem uploadLoop_all_ok (uploadOk : String → Bool) (bucket mc : String)
    (names : List String) (h : ∀ n ∈ names, uploadOk (mc ++ "/" ++ n) = true) :
    uploadLoop uploadOk bucket mc names =
      (names.map (fun n => ⟨mc ++ "/" ++ n, bucket, mc ++ "/" ++ n⟩), true) := by
  induction names with
  | nil => rfl
  | cons n rest ih =>
    have hn := h n (List.mem_cons_self n rest)
    have hrest := ih (fun m hm => h m (List.mem_cons_of_mem n hm))
    simp only [uploadLoop, hn, if_true, hrest, List.map_cons]

/-- For a directory whose direct entries are all regular files, the
recursive file enumeration coincides with `os.listdir`. -/
theorem regularFilePaths_flat (entries : List FsTree)
    (h : entries.all FsTree.isFile = true) :
    regularFilePaths entries = listdirNames entries := by
  induction entries with
  | nil => rfl
  | cons e rest ih =>
    rw [List.all_cons, Bool.and_eq_true] at h
    cases e with
    | file n =>
      simp only [regularFilePaths, FsTree.filesUnder, listdirNames,
        List.map_cons, FsTree.name, List.singleton_append]
      rw [ih h.2]
      rfl
    | dir d sub => exact absurd h.1 (by simp [FsTree.isFile])

/-- C2 counterexample: on a checkpoint directory whose two regular files sit
inside a subdirectory, `on_save` issues one upload call (for the single
`os.listdir` entry), not one per regular file. -/
theorem on_save_not_recursive :
    (SaveCheckpointsToS3Callback.on_save defaultConfig 10 nestedEntries
        (fun _ => true)).1.length ≠ (regularFilePaths nestedEntries).length := by
  decide

/-- C2 (amended): `on_save` enumerates only the DIRECT entries of the
checkpoint directory (`os.listdir`, no recursion); it issues one upload call
per direct entry with remote key
`training_name ++ "/checkpoint-" ++ step ++ "/" ++ name`.  When every direct
entry is a regular file — so the direct entries are exactly the regular
files of the directory — this is one upload per regular file, with key equal
to the run prefix joined with the file's path relative to the run root, for
the S3 and the GCS callback alike. -/
theorem on_save_uploads_direct_entries (cfg : Config) (step : Nat)
    (entries : List FsTree) (hflat : entries.all FsTree.isFile = true) :
    SaveCheckpointsToS3Callback.on_save cfg step entries (fun _ => true) =
      ((regularFilePaths entries).map (fun n =>
        ⟨cfg.training_name ++ "/checkpoint-" ++ toString step ++ "/" ++ n,
         cfg.s3_bucket_name,
         cfg.training_name ++ "/checkpoint-" ++ toString step ++ "/" ++ n⟩),
       true) ∧
    SaveCheckpointsToGCSCallback.on_save cfg step entries (fun _ => true) =
      ((regularFilePaths entries).map (fun n =>
        ⟨cfg.training_name ++ "/checkpoint-" ++ toString step ++ "/" ++ n,
         cfg.gcs_bucket_name,
         cfg.training_name ++ "/checkpoint-" ++ toString step ++ "/" ++ n⟩),
       true) := by
  rw [regularFilePaths_flat entries hflat]
  exact ⟨uploadLoop_all_ok _ _ _ _ (fun n _ => rfl),
         uploadLoop_all_ok _ _ _ _ (fun n _ => rfl)⟩

/-- Witness for the amended C2 on a flat two-file checkpoint directory. -/
theorem on_save_uploads_direct_entries_witness :
    flatEntries.all FsTree.isFile = true ∧
    (SaveCheckpointsToS3Callback.on_save defaultConfig 10 flatEntries
        (fun _ => true) =
      ((regularFilePaths flatEntries).map (fun n =>
        ⟨defaultConfig.training_name ++ "/checkpoint-" ++ toString 10 ++ "/" ++ n,
         defaultConfig.s3_bucket_name,
         defaultConfig.training_name ++ "/checkpoint-" ++ toString 10 ++ "/" ++ n⟩),
       true) ∧
     SaveCheckpointsToGCSCallback.on_save defaultConfig 10 flatEntries
        (fun _ => true) =
      ((regularFilePaths flatEntries).map (fun n =>
        ⟨defaultConfig.training_name ++ "/checkpoint-" ++ toString 10 ++ "/" ++ n,
         defaultConfig.gcs_bucket_name,
         defaultConfig.training_name ++ "/checkpoint-" ++ toString 10 ++ "/" ++ n⟩),
       true)) :=
  ⟨by decide, on_save_uploads_direct_entries defaultConfig 10 flatEntries (by decide)⟩

/-- If some listed file's transfer fails, the upload loop aborts at the
first failure: the loop result is failure, and the calls that completed are
exactly those for the names before the first failing one. -/
theorem uploadLoop_fail_eq (uploadOk : String → Bool) (bucket mc : String)
    (names : List String)
    (h : ∃ n ∈ names, uploadOk (mc ++ "/" ++ n) = false) :
    (uploadLoop uploadOk bucket mc names).2 = false ∧
    (uploadLoop uploadOk bucket mc names).1 =
      (names.takeWhile (fun n => uploadOk (mc ++ "/" ++ n))).map
        (fun n => ⟨mc ++ "/" ++ n, bucket, mc ++ "/" ++ n⟩) := by
  induction names with
  | nil =>
    rcases h with ⟨n, hn, _⟩
    exact absurd hn (List.not_mem_nil n)
  | cons n rest ih =>
    cases hcase : uploadOk (mc ++ "/" ++ n) with
    | false =>
      constructor <;> simp [uploadLoop, hcase, List.takeWhile_cons]
    | true =>
      have hrest : ∃ m ∈ rest, uploadOk (mc ++ "/" ++ m) = false := by
        rcases h with ⟨m, hm, hfm⟩
        rcases List.mem_cons.mp hm with rfl | hm'
        · rw [hcase] at hfm
          exact absurd hfm (by simp)
        · exact ⟨m, hm', hfm⟩
      obtain ⟨ih1, ih2⟩ := ih hrest
      constructor
      · simp only [uploadLoop, hcase, if_true]
        exact ih1
      · simp only [uploadLoop, hcase, if_true, List.takeWhile_cons, List.map_cons]
        rw [ih2]

/-- C7: when the SDK transfer of some listed file fails, `on_save` fails
(the exception propagates out of the per-file loop at once, with no local
recovery), and the transfers completed before the failing one remain done —
exactly the files before the first failure, with no rollback — for the S3
and the GCS callback alike. -/
theorem on_save_upload_failure (cfg : Config) (step : Nat)
    (entries : List FsTree) (uploadOk : String → Bool)
    (h : ∃ e ∈ entries, uploadOk (cfg.training_name ++ "/checkpoint-" ++
        toString step ++ "/" ++ e.name) = false) :
    ((SaveCheckpointsToS3Callback.on_save cfg step entries uploadOk).2 = false ∧
     (SaveCheckpointsToS3Callback.on_save cfg step entries uploadOk).1 =
       ((listdirNames entries).takeWhile (fun n =>
          uploadOk (cfg.training_name ++ "/checkpoint-" ++ toString step ++ "/" ++ n))).map
        (fun n =>
          ⟨cfg.training_name ++ "/checkpoint-" ++ toString step ++ "/" ++ n,
           cfg.s3_bucket_name,
           cfg.training_name ++ "/checkpoint-" ++ toString step ++ "/" ++ n⟩)) ∧
    ((SaveCheckpointsToGCSCallback.on_save cfg step entries uploadOk).2 = false ∧
     (SaveCheckpointsToGCSCallback.on_save cfg step entries uploadOk).1 =
       ((listdirNames entries).takeWhile (fun n =>
          uploadOk (cfg.training_name ++ "/checkpoint-" ++ toString step ++ "/" ++ n))).map
        (fun n =>
          ⟨cfg.training_name ++ "/checkpoint-" ++ toString step ++ "/" ++ n,
           cfg.gcs_bucket_name,
           cfg.training_name ++ "/checkpoint-" ++ toString step ++ "/" ++ n⟩)) := by
  have hnames : ∃ n ∈ listdirNames entries,
      uploadOk (cfg.training_name ++ "/checkpoint-" ++ toString step ++ "/" ++ n) = false := by
    rcases h with ⟨e, he, hfe⟩
    exact ⟨e.name, List.mem_map_of_mem FsTree.name he, hfe⟩
  exact ⟨uploadLoop_fail_eq uploadOk cfg.s3_bucket_name _ _ hnames,
         uploadLoop_fail_eq uploadOk cfg.gcs_bucket_name _ _ hnames⟩

/-- Witness for C7: two flat files; `config.json` fails to transfer, so the
loop reports failure while `model.bin` stays uploaded. -/
theorem on_save_upload_failure_witness :
    (∃ e ∈ flatEntries,
      (fun p => decide (p = "trainer-demo-checkpointing/checkpoint-10/model.bin"))
        (defaultConfig.training_name ++ "/checkpoint-" ++ toString 10 ++ "/" ++ e.name) = false) ∧
    (((SaveCheckpointsToS3Callback.on_save defaultConfig 10 flatEntries
        (fun p => decide (p = "trainer-demo-checkpointing/checkpoint-10/model.bin"))).2 = false ∧
      (SaveCheckpointsToS3Callback.on_save defaultConfig 10 flatEntries
        (fun p => decide (p = "trainer-demo-checkpointing/checkpoint-10/model.bin"))).1 =
       ((listdirNames flatEntries).takeWhile (fun n =>
          (fun p => decide (p = "trainer-demo-checkpointing/checkpoint-10/model.bin"))
            (defaultConfig.training_name ++ "/checkpoint-" ++ toString 10 ++ "/" ++ n))).map
        (fun n =>
          ⟨defaultConfig.training_name ++ "/checkpoint-" ++ toString 10 ++ "/" ++ n,
           defaultConfig.s3_bucket_name,
           defaultConfig.training_name ++ "/checkpoint-" ++ toString 10 ++ "/" ++ n⟩)) ∧
     ((SaveCheckpointsToGCSCallback.on_save defaultConfig 10 flatEntries
        (fun p => decide (p = "trainer-demo-checkpointing/checkpoint-10/model.bin"))).2 = false ∧
      (SaveCheckpointsToGCSCallback.on_save defaultConfig 10 flatEntries
        (fun p => decide (p = "trainer-demo-checkpointing/checkpoint-10/model.bin"))).1 =
       ((listdirNames flatEntries).takeWhile (fun n =>
          (fun p => decide (p = "trainer-demo-checkpointing/checkpoint-10/model.bin"))
            (defaultConfig.training_name ++ "/checkpoint-" ++ toString 10 ++ "/" ++ n))).map
        (fun n =>
          ⟨defaultConfig.training_name ++ "/checkpoint-" ++ toString 10 ++ "/" ++ n,
           defaultConfig.gcs_bucket_name,
           defaultConfig.training_name ++ "/checkpoint-" ++ toString 10 ++ "/" ++ n⟩))) :=
  ⟨⟨.file "config.json", by simp [flatEntries], by decide⟩,
   on_save_upload_failure defaultConfig 10 flatEntries
     (fun p => decide (p = "trainer-demo-checkpointing/checkpoint-10/model.bin"))
     ⟨.file "config.json", by simp [flatEntries], by decide⟩⟩

/-- The upload-loop trace, projected to (local path, remote key), and its
success flag do not depend on the destination bucket. -/
theorem uploadLoop_bucket_irrelevant (uploadOk : String → Bool)
    (b1 b2 mc : String) (names : List String) :
    (uploadLoop uploadOk b1 mc names).1.map (fun c => (c.localPath, c.key)) =
      (uploadLoop uploadOk b2 mc names).1.map (fun c => (c.localPath, c.key)) ∧
    (uploadLoop uploadOk b1 mc names).2 = (uploadLoop uploadOk b2 mc names).2 := by
  induction names with
  | nil => exact ⟨rfl, rfl⟩
  | cons n rest ih =>
    cases hcase : uploadOk (mc ++ "/" ++ n) with
    | false => exact ⟨by simp [uploadLoop, hcase], by simp [uploadLoop, hcase]⟩
    | true =>
      refine ⟨?_, ?_⟩ <;>
        simp only [uploadLoop, hcase, if_true, List.map_cons]
      · rw [ih.1]
      · exact ih.2

/-- C8: for every configuration, step and directory content, and every
per-path transfer outcome, the S3 callback and the GCS callback upload
exactly the same local files under exactly the same remote keys and report
the same outcome; the only observable difference is the destination bucket
of the SDK calls. -/
theorem publishers_equivalent (cfg : Config) (step : Nat)
    (entries : List FsTree) (uploadOk : String → Bool) :
    (SaveCheckpointsToS3Callback.on_save cfg step entries uploadOk).1.map
        (fun c => (c.localPath, c.key)) =
      (SaveCheckpointsToGCSCallback.on_save cfg step entries uploadOk).1.map
        (fun c => (c.localPath, c.key)) ∧
    (SaveCheckpointsToS3Callback.on_save cfg step entries uploadOk).2 =
      (SaveCheckpointsToGCSCallback.on_save cfg step entries uploadOk).2 :=
  uploadLoop_bucket_irrelevant uploadOk cfg.s3_bucket_name cfg.gcs_bucket_name
    (cfg.training_name ++ "/checkpoint-" ++ toString step) (listdirNames entries)

/-- In a list sorted by `r`, every element is the last one or is `r`-below
it. -/
theorem sorted_rel_getLast {α : Type} {r : α → α → Prop} {l : List α}
    {last : α} (hs : l.Sorted r) (hl : l.getLast? = some last) :
    ∀ x ∈ l, x = last ∨ r x last := by
  obtain ⟨ys, rfl⟩ := List.getLast?_eq_some_iff.mp hl
  intro x hx
  rcases List.mem_append.mp hx with hys | hlast
  · exact Or.inr ((List.pairwise_append.mp hs).2.2 x hys last (List.mem_singleton_self last))
  · exact Or.inl (List.mem_singleton.mp hlast)

/-- C3: whenever the S3 helper succeeds, the checkpoint directory it selects
is the second `/`-separated component of the key of an object with maximal
`lastModified` in the listing — the last element after the ascending
stable sort by `lastModified`. -/
theorem loader_selects_latest (s3Env : String → List RemoteObject)
    (dir : String) (files : List String)
    (h : getLastCheckpointFromS3 s3Env = .ok (dir, files)) :
    ∃ o ∈ s3Env "hf-demo-s3-checkpointing-sagemaker",
      (∀ o' ∈ s3Env "hf-demo-s3-checkpointing-sagemaker",
        o'.lastModified ≤ o.lastModified) ∧
      (pySplit o.key '/').get? 1 = some dir := by
  unfold getLastCheckpointFromS3 at h
  simp only [] at h
  split at h
  · exact Except.noConfusion h
  · rename_i lastKey hLast
    split at h
    · exact Except.noConfusion h
    · rename_i cdir hSplit
      injection h with h'
      injection h' with hd hf
      subst hd
      subst hf
      rw [List.getLast?_map] at hLast
      obtain ⟨lastObj, hLastObj, hkey⟩ := Option.map_eq_some'.mp hLast
      refine ⟨lastObj, ?_, ?_, ?_⟩
      · exact (List.mem_insertionSort leLastModified).mp
          (List.mem_of_getLast?_eq_some hLastObj)
      · intro o' ho'
        have hsorted := List.sorted_insertionSort leLastModified
          (s3Env "hf-demo-s3-checkpointing-sagemaker")
        rcases sorted_rel_getLast hsorted hLastObj o'
            ((List.mem_insertionSort leLastModified).mpr ho') with rfl | hle
        · exact Nat.le_refl _
        · exact hle
      · rw [hkey]
        exact hSplit

/-- Witness for C3 on a store with an older `checkpoint-50` and a newer
`checkpoint-100` group. -/
theorem loader_selects_latest_witness :
    getLastCheckpointFromS3 env10050 =
      .ok ("checkpoint-100",
        ["run/checkpoint-100/a.bin", "run/checkpoint-100/b.bin"]) ∧
    ∃ o ∈ env10050 "hf-demo-s3-checkpointing-sagemaker",
      (∀ o' ∈ env10050 "hf-demo-s3-checkpointing-sagemaker",
        o'.lastModified ≤ o.lastModified) ∧
      (pySplit o.key '/').get? 1 = some "checkpoint-100" :=
  ⟨rfl, loader_selects_latest env10050 "checkpoint-100"
    ["run/checkpoint-100/a.bin", "run/checkpoint-100/b.bin"] rfl⟩

/-- C4: whenever the S3 helper succeeds, the keys it hands to the download
loop are exactly the listed keys containing the selected directory name as a
substring, and `download_checkpoints` downloads exactly those keys. -/
theorem loader_downloads_substring_matches (s3Env : String → List RemoteObject)
    (dir : String) (files : List String)
    (h : getLastCheckpointFromS3 s3Env = .ok (dir, files)) :
    (∀ k : String, k ∈ files ↔
      (k ∈ (s3Env "hf-demo-s3-checkpointing-sagemaker").map RemoteObject.key ∧
       strContains k dir = true)) ∧
    ∀ (cfg : Config) (gcsEnv : String → List RemoteObject),
      ((CloudCheckpointLoader.mk "s3").download_checkpoints cfg s3Env
          gcsEnv).1.downloads.map Prod.snd = files := by
  constructor
  · unfold getLastCheckpointFromS3 at h
    simp only [] at h
    split at h
    · exact Except.noConfusion h
    · rename_i lastKey hLast
      split at h
      · exact Except.noConfusion h
      · rename_i cdir hSplit
        injection h with h'
        injection h' with hd hf
        subst hd
        subst hf
        intro k
        rw [List.mem_filter]
        simp only [List.mem_map, List.mem_insertionSort]
  · intro cfg gcsEnv
    rw [download_s3_eq, h]
    simp only [List.map_map]
    exact List.map_id files

/-- Witness for C4: with objects of `checkpoint-50` (older) and
`checkpoint-100` (newer) in the store, exactly `checkpoint-100`'s objects
are selected and downloaded. -/
theorem loader_downloads_substring_matches_witness :
    getLastCheckpointFromS3 env10050 =
      .ok ("checkpoint-100",
        ["run/checkpoint-100/a.bin", "run/checkpoint-100/b.bin"]) ∧
    (∀ k : String,
      k ∈ ["run/checkpoint-100/a.bin", "run/checkpoint-100/b.bin"] ↔
      (k ∈ (env10050 "hf-demo-s3-checkpointing-sagemaker").map RemoteObject.key ∧
       strContains k "checkpoint-100" = true)) ∧
    ∀ (cfg : Config) (gcsEnv : String → List RemoteObject),
      ((CloudCheckpointLoader.mk "s3").download_checkpoints cfg env10050
          gcsEnv).1.downloads.map Prod.snd =
        ["run/checkpoint-100/a.bin", "run/checkpoint-100/b.bin"] :=
  ⟨rfl, loader_downloads_substring_matches env10050 "checkpoint-100"
    ["run/checkpoint-100/a.bin", "run/checkpoint-100/b.bin"] rfl⟩

/-- C10: the S3 listing call hard-codes the literal bucket
`"hf-demo-s3-checkpointing-sagemaker"`, so for two configurations that agree
on `training_name` but may differ in `s3_bucket_name`, and two stores that
agree on that literal bucket, listing and latest-checkpoint selection give
identical results (same directory created, same keys chosen, same outcome),
while each per-file download reads the bucket named by the respective
configured `s3_bucket_name`. -/
theorem s3_listing_ignores_configured_bucket (cfg1 cfg2 : Config)
    (s3Env s3Env' gcsEnv : String → List RemoteObject)
    (hname : cfg1.training_name = cfg2.training_name)
    (henv : s3Env "hf-demo-s3-checkpointing-sagemaker" =
      s3Env' "hf-demo-s3-checkpointing-sagemaker") :
    ((CloudCheckpointLoader.mk "s3").download_checkpoints cfg1 s3Env
        gcsEnv).1.dirsCreated =
      ((CloudCheckpointLoader.mk "s3").download_checkpoints cfg2 s3Env'
        gcsEnv).1.dirsCreated ∧
    ((CloudCheckpointLoader.mk "s3").download_checkpoints cfg1 s3Env
        gcsEnv).1.downloads.map Prod.snd =
      ((CloudCheckpointLoader.mk "s3").download_checkpoints cfg2 s3Env'
        gcsEnv).1.downloads.map Prod.snd ∧
    (∀ d ∈ ((CloudCheckpointLoader.mk "s3").download_checkpoints cfg1 s3Env
        gcsEnv).1.downloads, d.1 = cfg1.s3_bucket_name) ∧
    (∀ d ∈ ((CloudCheckpointLoader.mk "s3").download_checkpoints cfg2 s3Env'
        gcsEnv).1.downloads, d.1 = cfg2.s3_bucket_name) ∧
    ((CloudCheckpointLoader.mk "s3").download_checkpoints cfg1 s3Env
        gcsEnv).2 =
      ((CloudCheckpointLoader.mk "s3").download_checkpoints cfg2 s3Env'
        gcsEnv).2 := by
  have hsel : getLastCheckpointFromS3 s3Env = getLastCheckpointFromS3 s3Env' := by
    unfold getLastCheckpointFromS3
    rw [henv]
  rw [download_s3_eq, download_s3_eq, hsel]
  rcases hs : getLastCheckpointFromS3 s3Env' with e | pr
  · simp
  · rcases pr with ⟨d, fs⟩
    simp only []
    refine ⟨by rw [hname], ?_, ?_, ?_, trivial⟩
    · simp [List.map_map]
    · intro x hx
      rcases List.mem_map.mp hx with ⟨f, _, rfl⟩
      rfl
    · intro x hx
      rcases List.mem_map.mp hx with ⟨f, _, rfl⟩
      rfl

/-- Witness for C10: two configurations differing only in
`s3_bucket_name`, over the same store. -/
theorem s3_listing_ignores_configured_bucket_witness :
    (defaultConfig.training_name =
        (Config.mk training_name "another-bucket" gcs_bucket_name).training_name ∧
      env10050 "hf-demo-s3-checkpointing-sagemaker" =
        env10050 "hf-demo-s3-checkpointing-sagemaker") ∧
    ((CloudCheckpointLoader.mk "s3").download_checkpoints defaultConfig env10050
        (fun _ => [])).1.dirsCreated =
      ((CloudCheckpointLoader.mk "s3").download_checkpoints
        (Config.mk training_name "another-bucket" gcs_bucket_name) env10050
        (fun _ => [])).1.dirsCreated ∧
    ((CloudCheckpointLoader.mk "s3").download_checkpoints defaultConfig env10050
        (fun _ => [])).1.downloads.map Prod.snd =
      ((CloudCheckpointLoader.mk "s3").download_checkpoints
        (Config.mk training_name "another-bucket" gcs_bucket_name) env10050
        (fun _ => [])).1.downloads.map Prod.snd ∧
    (∀ d ∈ ((CloudCheckpointLoader.mk "s3").download_checkpoints defaultConfig
        env10050 (fun _ => [])).1.downloads, d.1 = defaultConfig.s3_bucket_name) ∧
    (∀ d ∈ ((CloudCheckpointLoader.mk "s3").download_checkpoints
        (Config.mk training_name "another-bucket" gcs_bucket_name) env10050
        (fun _ => [])).1.downloads,
      d.1 = (Config.mk training_name "another-bucket" gcs_bucket_name).s3_bucket_name) ∧
    ((CloudCheckpointLoader.mk "s3").download_checkpoints defaultConfig env10050
        (fun _ => [])).2 =
      ((CloudCheckpointLoader.mk "s3").download_checkpoints
        (Config.mk training_name "another-bucket" gcs_bucket_name) env10050
        (fun _ => [])).2 :=
  ⟨⟨rfl, rfl⟩,
   s3_listing_ignores_configured_bucket defaultConfig
     (Config.mk training_name "another-bucket" gcs_bucket_name)
     env10050 env10050 (fun _ => []) rfl rfl⟩
